import Mathlib

/-!
Verification of the SAT question import pipeline
(`scripts/sat_import_resumable_ui.py` and
`scripts/populate_sat_questions_final.py`).

The Python code is shallowly embedded: dictionaries become structures with
`Option` fields (a missing key is `none`), Python truthiness of strings /
lists / optional ints is modelled explicitly, network and database calls
become environment records of pure functions (`Except` captures a raised
exception), and mutable counters become explicit state passed through pure
folds.  Every definition mirrors a concrete piece of the source; the file
ends with one theorem per specification claim.
-/

set_option autoImplicit false

namespace SatImport

/-! Section: Python primitives -/

/-- Truthiness of an optional string value (`None` and `""` are falsy). -/
def strTruthy : Option String → Bool
  | none => false
  | some s => !(s == "")

/-- Python `a or b` on optional strings: `a` when truthy, else `b`. -/
def pyOr (a b : Option String) : Option String :=
  if strTruthy a then a else b

/-- Python `str.upper()` (ASCII case mapping, which is all the importer uses). -/
def pyUpper (s : String) : String :=
  String.mk (s.data.map Char.toUpper)

/-- Predicate `headMatches p s`: true when the character list `p` is an initial
segment of `s` (the core of Python `str.startswith`). -/
def headMatches : List Char → List Char → Bool
  | [], _ => true
  | _ :: _, [] => false
  | p :: ps, c :: cs => p == c && headMatches ps cs

/-- Python `s.startswith(pre)`. -/
def pyStartswith (s pre : String) : Bool :=
  headMatches pre.data s.data

/-- Occurrence test `occursB q s`: true when `q` occurs as a contiguous substring of `s`. -/
def occursB (q : List Char) : List Char → Bool
  | [] => headMatches q []
  | c :: cs => headMatches q (c :: cs) || occursB q cs

/-- Fuelled model of Python `str.replace` for a non-empty pattern
`p :: ps`: scan left to right; on a match emit `repl` and skip the length
of the pattern, otherwise copy one character.  With `fuel ≥` the length of
the input the fuel never runs out, so `repF p ps repl s.length s` is
exactly `s.replace(pat, repl)`. -/
def repF (p : Char) (ps repl : List Char) : Nat → List Char → List Char
  | _, [] => []
  | 0, c :: cs => c :: cs
  | fuel + 1, c :: cs =>
    if headMatches (p :: ps) (c :: cs) then
      repl ++ repF p ps repl fuel (cs.drop ps.length)
    else
      c :: repF p ps repl fuel cs

/-- Python `dict.get` over an association list (insertion ordered, like a
Python dict). -/
def dictGet (d : List (String × String)) (k : String) : Option String :=
  match d with
  | [] => none
  | (a, b) :: rest => if k == a then some b else dictGet rest k

/-! Section: Static tables (`SAT_SKILL_MAPPING`, `RATE_LIMIT_THRESHOLD`) -/

/-- The static SAT skill-code table, identical in both scripts. -/
def SAT_SKILL_MAPPING : List (String × String) :=
  [("H.A.", "linear-equations-one-var"),
   ("H.B.", "linear-functions"),
   ("H.C.", "linear-equations-two-var"),
   ("H.D.", "systems-linear-equations"),
   ("H.E.", "linear-inequalities"),
   ("P.A.", "equivalent-expressions"),
   ("P.B.", "nonlinear-equations-systems"),
   ("P.C.", "nonlinear-functions"),
   ("Q.A.", "ratios-rates-proportions"),
   ("Q.B.", "percentages"),
   ("Q.C.", "one-variable-data"),
   ("Q.D.", "two-variable-data"),
   ("Q.E.", "probability-conditional"),
   ("Q.F.", "inference-statistics"),
   ("Q.G.", "statistical-claims"),
   ("S.A.", "area-volume"),
   ("S.B.", "lines-angles-triangles"),
   ("S.C.", "right-triangles-trigonometry"),
   ("S.D.", "circles"),
   ("CID", "central-ideas-details"),
   ("INF", "inferences"),
   ("COE", "command-evidence"),
   ("WIC", "words-in-context"),
   ("TSP", "text-structure-purpose"),
   ("CTC", "cross-text-connections"),
   ("SYN", "rhetorical-synthesis"),
   ("TRA", "transitions"),
   ("BOU", "boundaries"),
   ("FSS", "form-structure-sense")]

/-- Classifier `get_domain_subject_mapping` from `sat_import_resumable_ui.py`
(lines 96-114); `populate_sat_questions_final.py` inlines the identical
prefix / membership chain in `add_question` (lines 224-250). -/
def get_domain_subject_mapping (skill_code : String) : Option String × Option String :=
  if pyStartswith skill_code "H." then (some "algebra", some "math")
  else if pyStartswith skill_code "P." then (some "advanced-math", some "math")
  else if pyStartswith skill_code "Q." then (some "problem-solving-data-analysis", some "math")
  else if pyStartswith skill_code "S." then (some "geometry-trigonometry", some "math")
  else if skill_code ∈ (["CID", "INF", "COE"] : List String) then
    (some "information-ideas", some "english")
  else if skill_code ∈ (["WIC", "TSP", "CTC"] : List String) then
    (some "craft-structure", some "english")
  else if skill_code ∈ (["SYN", "TRA"] : List String) then
    (some "expression-ideas", some "english")
  else if skill_code ∈ (["BOU", "FSS"] : List String) then
    (some "standard-english-conventions", some "english")
  else (none, none)

/-- Constant `RATE_LIMIT_THRESHOLD = 422` from `sat_import_resumable_ui.py` line 42. -/
def RATE_LIMIT_THRESHOLD : Int := 422

/-- Truthiness of the `max_questions` argument (`None` and `0` are falsy). -/
def intTruthy : Option Int → Bool
  | none => false
  | some m => !(m == 0)

/-- The window-end computation of `import_with_resume`
(`sat_import_resumable_ui.py` lines 361-365):
`if max_questions: end_index = min(start_index + max_questions, total)`
`else: end_index = min(start_index + RATE_LIMIT_THRESHOLD, total)`. -/
def compute_end_index (start_index total_questions : Nat) (max_questions : Option Int) : Int :=
  if intTruthy max_questions then
    min ((start_index : Int) + max_questions.getD 0) ((total_questions : Int))
  else
    min ((start_index : Int) + RATE_LIMIT_THRESHOLD) ((total_questions : Int))

/-! Section: The markup normaliser (`preprocess_mathml`) -/

/-- Normaliser `preprocess_mathml` from `sat_import_resumable_ui.py` lines 116-122
(and the identical `preprocess_mathml_content` of
`populate_sat_questions_final.py` lines 101-114):
`if not text: return text`, then
`text.replace('<mfenced>', '<mo>(</mo>').replace('</mfenced>', '<mo>)</mo>')`. -/
def preprocess_mathml (text : String) : String :=
  if text == "" then text
  else
    let t1 := String.mk (repF '<' ("mfenced>".data) ("<mo>(</mo>".data) text.data.length text.data)
    String.mk (repF '<' ("/mfenced>".data) ("<mo>)</mo>".data) t1.data.length t1.data)

/-- Alias for the identical function in `populate_sat_questions_final.py`. -/
def preprocess_mathml_content : String → String := preprocess_mathml

/-! Section: Progress store (`SATImportProgressManager`) -/

/-- One per-partition record of the progress file (minus the wall-clock
timestamp, which is carried as an opaque `Nat`). -/
structure ComboProgress where
  total_questions : Nat
  processed_questions : Nat
  next_start_index : Nat
  imported : Nat
  duplicates : Nat
  skipped : Nat
  failed : Nat
  completed : Bool
  last_updated : Option Nat
deriving DecidableEq

/-- Progress update `update_combo_progress` from `sat_import_resumable_ui.py` lines
500-518.  `old = none` models a combo key absent from the progress file
(the source inserts `{}` and every counter read uses `.get(key, 0)`). -/
def update_combo_progress (old : Option ComboProgress)
    (total_questions next_start_index imported duplicates skipped failed now : Nat) :
    ComboProgress :=
  let getOr : (ComboProgress → Nat) → Nat := fun f =>
    match old with
    | none => 0
    | some p => f p
  { total_questions := total_questions
    processed_questions := next_start_index
    next_start_index := next_start_index
    imported := getOr (fun p => p.imported) + imported
    duplicates := getOr (fun p => p.duplicates) + duplicates
    skipped := getOr (fun p => p.skipped) + skipped
    failed := getOr (fun p => p.failed) + failed
    completed := decide (next_start_index ≥ total_questions)
    last_updated := some now }

/-! Section: Data model of the vendor payloads and the canonical record -/

/-- One element of the overview list returned by the vendor list endpoint.
`externalid` is the alternate spelling only `populate_sat_questions_final.py`
reads. -/
structure OverviewItem where
  external_id : Option String
  externalid : Option String
  ibn : Option String
  skill_cd : Option String
  program : Option String
  score_band_range_cd : Option Nat
  difficulty : Option String
deriving DecidableEq

/-- All-`none` overview item (an empty dict). -/
def defaultOverview : OverviewItem :=
  ⟨none, none, none, none, none, none, none⟩

/-- The `keys` / `correct_answers` field of a new-format detail payload:
absent, a bare string, or a list of strings (the source normalises a bare
string to a one-element list). -/
inductive KeysVal where
  | absent
  | str (s : String)
  | list (l : List String)
deriving DecidableEq

/-- Conversion `correct_answers = keys if isinstance(keys, str) is wrapped in a list`. -/
def keysToList : KeysVal → List String
  | KeysVal.absent => []
  | KeysVal.str s => [s]
  | KeysVal.list l => l

/-- Fallback lookup `question.get('keys', question.get('correct_answers', []))` from
`populate_sat_questions_final.py` lines 277 and 310. -/
def keysFallback : KeysVal → KeysVal → List String
  | KeysVal.absent, k2 => keysToList k2
  | KeysVal.str s, _ => keysToList (KeysVal.str s)
  | KeysVal.list l, _ => keysToList (KeysVal.list l)

/-- One raw option of a new-format `answerOptions` list.  Options are
modelled with their `id` present (the importer raises, respectively
filters, on id-less options); `text` and `is_correct` are the extra keys
only `populate_sat_questions_final.py` reads. -/
structure AnswerOptionIn where
  id : String
  content : Option String
  text : Option String
  is_correct : Option Bool
deriving DecidableEq

/-- New-format (external-id keyed) question detail payload. -/
structure NewDetail where
  stem : Option String
  stimulus : Option String
  rationale : Option String
  type : Option String
  answerOptions : Option (List AnswerOptionIn)
  keys : KeysVal
  correct_answers : KeysVal
deriving DecidableEq

/-- One choice value of the legacy `answer.choices` mapping. -/
structure OldChoice where
  body : Option String
deriving DecidableEq

/-- The nested `answer` object of a legacy (ibn-keyed) detail payload.
`choices` is an insertion-ordered keyed mapping, as a Python dict. -/
structure OldAnswer where
  rationale : Option String
  style : Option String
  choices : List (String × OldChoice)
  correct_choice : Option String
deriving DecidableEq

/-- Default for `q_data.get("answer", {})`. -/
def defaultOldAnswer : OldAnswer := ⟨none, none, [], none⟩

/-- One element of a legacy (ibn-keyed) detail payload list. -/
structure OldItem where
  prompt : Option String
  body : Option String
  answer : Option OldAnswer
deriving DecidableEq

/-- A question-detail JSON document: a dict (new format) or a list
(legacy format).  The importer branches on which identifier is present,
so the two can be mismatched, which the embedding keeps faithful. -/
inductive Detail where
  | dict (d : NewDetail)
  | list (items : List OldItem)
deriving DecidableEq

/-- One persisted answer option (`{id, content, is_correct}`). -/
structure AnswerOption where
  id : String
  content : String
  is_correct : Bool
deriving DecidableEq

/-- The canonical question record handed to the upsert.
`sat_ibn` and `explanation` are optional because
`populate_sat_questions_final.py` omits / can null them. -/
structure QuestionRecord where
  origin : String
  sat_external_id : Option String
  sat_ibn : Option String
  question_text : String
  stimulus : Option String
  question_type : String
  skill_id : String
  sat_program : String
  difficulty_band : Nat
  difficulty_letter : Option String
  answer_options : Option (List AnswerOption)
  correct_answers : List String
  explanation : Option String
  domain_id : String
  subject_id : String
  is_active : Bool
deriving DecidableEq

/-- The per-item outcome; each maps to exactly one counter. -/
inductive AddStatus where
  | imported
  | duplicate
  | skipped
  | failed
deriving DecidableEq

/-- Result of `ResumableSATImporter.add_question`: the status/message pair
it returns, plus the canonical record that reached the upsert (if any). -/
structure AddResult where
  status : AddStatus
  message : String
  record : Option QuestionRecord
deriving DecidableEq

/-! Section: Environments for network and database effects -/

/-- The effectful collaborators of `ResumableSATImporter`: the two
Supabase queries and the upsert (first argument is the `on_conflict`
column), and the two College Board detail endpoints.  An `Except.error`
models a raised exception, `none` from a fetch models the
caught-and-logged transport failure of `fetch_question_details`. -/
structure ImportEnv where
  queryByExternalId : String → Except String (List String)
  queryByIbn : String → Except String (List String)
  upsert : String → QuestionRecord → Except String (List String)
  fetchNewApi : String → Option Detail
  fetchOldApi : String → Option Detail

/-- Duplicate check `check_question_exists_by_external_id` (lines 140-151): run the query;
a non-empty row list means the record is present; any exception yields
`False`. -/
def check_question_exists_by_external_id (env : ImportEnv) (external_id : String) : Bool :=
  match env.queryByExternalId external_id with
  | Except.ok rows => decide (rows.length > 0)
  | Except.error _ => false

/-- Duplicate check `check_question_exists_by_ibn` (lines 153-164), same shape. -/
def check_question_exists_by_ibn (env : ImportEnv) (ibn : String) : Bool :=
  match env.queryByIbn ibn with
  | Except.ok rows => decide (rows.length > 0)
  | Except.error _ => false

/-! Section: Content normalisation inside `ResumableSATImporter.add_question` -/

/-- The six fields the normalisation block of `add_question` computes. -/
structure NormOut where
  question_text : String
  stimulus : Option String
  explanation : String
  question_type : String
  answer_options : Option (List AnswerOption)
  correct_answers : List String
deriving DecidableEq

/-- The initial values of lines 202-207 (kept when neither format branch
fires). -/
def defaultNorm : NormOut := ⟨"", none, "", "mcq", none, []⟩

/-- Truthiness of an optional list (`None` and `[]` are falsy). -/
def listTruthy {α : Type} : Option (List α) → Bool
  | none => false
  | some l => !l.isEmpty

/-- New-format normalisation, `sat_import_resumable_ui.py` lines 209-227. -/
def normalize_new (question : NewDetail) : NormOut :=
  let question_text := preprocess_mathml (question.stem.getD "")
  let stimulus :=
    if strTruthy question.stimulus then some (preprocess_mathml (question.stimulus.getD ""))
    else none
  let explanation := question.rationale.getD ""
  let question_type := question.type.getD "mcq"
  let answer_options :=
    if question_type == "mcq" && listTruthy question.answerOptions then
      some ((question.answerOptions.getD []).map fun o =>
        { id := o.id
          content := preprocess_mathml (o.content.getD "")
          is_correct := false })
    else none
  let correct_answers := keysToList question.keys
  ⟨question_text, stimulus, explanation, question_type, answer_options, correct_answers⟩

/-- Legacy-format normalisation, `sat_import_resumable_ui.py` lines
232-263: `style == "SPR"` yields an SPR question with no options and no
correct answers; otherwise an mcq whose options come from the keyed
`choices` mapping with upper-cased ids and `is_correct` literally
`False`, the upper-cased `correct_choice` going to `correct_answers`. -/
def normalize_old (q_data : OldItem) : NormOut :=
  let question_text := preprocess_mathml (q_data.prompt.getD "")
  let stimulus :=
    if strTruthy q_data.body then some (preprocess_mathml (q_data.body.getD ""))
    else none
  let answer_data := q_data.answer.getD defaultOldAnswer
  let explanation := answer_data.rationale.getD ""
  let answer_style := answer_data.style.getD "Multiple Choice"
  if answer_style == "SPR" then
    ⟨question_text, stimulus, explanation, "spr", none, []⟩
  else
    let answer_options :=
      if answer_data.choices.isEmpty then none
      else some (answer_data.choices.map fun kc =>
        { id := pyUpper kc.1
          content := preprocess_mathml (kc.2.body.getD "")
          is_correct := false })
    let correct_choice := answer_data.correct_choice.getD ""
    let correct_answers := if correct_choice == "" then [] else [pyUpper correct_choice]
    ⟨question_text, stimulus, explanation, "mcq", answer_options, correct_answers⟩

/-- Importer `ResumableSATImporter.add_question` (lines 166-305).  The body is one
big `try`; an exception inside (list payload where a dict is expected,
upsert raising) becomes the `failed` status of the outer `except`. -/
def add_question (env : ImportEnv) (overview : OverviewItem) (question : Detail) : AddResult :=
  let external_id := overview.external_id
  let ibn := overview.ibn
  if !strTruthy (pyOr external_id ibn) then
    ⟨AddStatus.skipped, "No external_id or ibn", none⟩
  else if strTruthy external_id
      && check_question_exists_by_external_id env (external_id.getD "") then
    ⟨AddStatus.duplicate, "Already exists in database (external_id)", none⟩
  else if strTruthy ibn && check_question_exists_by_ibn env (ibn.getD "") then
    ⟨AddStatus.duplicate, "Already exists in database (ibn)", none⟩
  else
    match overview.skill_cd with
    | none => ⟨AddStatus.skipped, "Unknown skill code: None", none⟩
    | some skill_code =>
      match dictGet SAT_SKILL_MAPPING skill_code with
      | none => ⟨AddStatus.skipped, "Unknown skill code: " ++ skill_code, none⟩
      | some skill_id =>
        match get_domain_subject_mapping skill_code with
        | (some domain_id, some subject_id) =>
          let normRes : Except String NormOut :=
            if strTruthy external_id then
              match question with
              | Detail.dict d => Except.ok (normalize_new d)
              | Detail.list _ =>
                Except.error "AttributeError: list object has no attribute get"
            else
              match question with
              | Detail.list (q_data :: _) => Except.ok (normalize_old q_data)
              | _ => Except.ok defaultNorm
          match normRes with
          | Except.error e => ⟨AddStatus.failed, e, none⟩
          | Except.ok norm =>
            let data : QuestionRecord :=
              { origin := if strTruthy ibn then "sat_official_ibn" else "sat_official"
                sat_external_id := external_id
                sat_ibn := ibn
                question_text := norm.question_text
                stimulus := norm.stimulus
                question_type := norm.question_type
                skill_id := skill_id
                sat_program := overview.program.getD "SAT"
                difficulty_band := overview.score_band_range_cd.getD 3
                difficulty_letter := overview.difficulty
                answer_options := norm.answer_options
                correct_answers := norm.correct_answers
                explanation := some norm.explanation
                domain_id := domain_id
                subject_id := subject_id
                is_active := true }
            let resp :=
              if strTruthy external_id then env.upsert "sat_external_id" data
              else env.upsert "sat_ibn" data
            match resp with
            | Except.error e => ⟨AddStatus.failed, e, some data⟩
            | Except.ok rows =>
              if !rows.isEmpty then ⟨AddStatus.imported, "Successfully imported", some data⟩
              else ⟨AddStatus.duplicate, "Duplicate detected by upsert", some data⟩
        | _ =>
          ⟨AddStatus.skipped, "Could not map domain/subject for: " ++ skill_code, none⟩

/-! Section: The final-script importer (`populate_sat_questions_final.py`) -/

/-- Result of the final script's single detail fetch
(`fetch_question_details`, lines 183-199): a payload, a successful call
whose JSON body is null/falsy, or a raised `RequestException` (which also
sets `self.timeout_occurred`). -/
inductive FetchResF where
  | ok (d : NewDetail)
  | nullData
  | err
deriving DecidableEq

/-- Effectful collaborators of `SATQuestionImporter`. -/
structure FinalEnv where
  fetchDetail : String → FetchResF
  upsert : String → QuestionRecord → Except String (List String)

/-- Importer `SATQuestionImporter.add_question` (lines 201-354).  Counter
mutation is returned as the `AddStatus` it increments, alongside the
record that reached the upsert (if any).  The source's
`if isinstance(option, dict) and 'id' in option` filter always passes in
the embedding because options are modelled with ids present. -/
def add_question_final (env : FinalEnv) (overview : OverviewItem) (question : NewDetail) :
    AddStatus × Option QuestionRecord :=
  let external_id? := pyOr overview.external_id overview.externalid
  if !strTruthy external_id? then (AddStatus.skipped, none)
  else
    let external_id := external_id?.getD ""
    match overview.skill_cd with
    | none => (AddStatus.skipped, none)
    | some sat_skill_code =>
      match dictGet SAT_SKILL_MAPPING sat_skill_code with
      | none => (AddStatus.skipped, none)
      | some skill_id =>
        match get_domain_subject_mapping sat_skill_code with
        | (some domain_id, some subject_id) =>
          match question.type with
          | none => (AddStatus.failed, none)
          | some qtype =>
            if qtype == "mcq" then
              let processed_answer_options :=
                (question.answerOptions.getD []).map fun o =>
                  { id := o.id
                    content := preprocess_mathml_content (o.content.getD (o.text.getD ""))
                    is_correct := o.is_correct.getD false : AnswerOption }
              let correct_answers := keysFallback question.keys question.correct_answers
              let question_text := preprocess_mathml_content (question.stem.getD "")
              let stimulus :=
                if strTruthy question.stimulus then
                  some (preprocess_mathml_content (question.stimulus.getD ""))
                else none
              let data : QuestionRecord :=
                { origin := "sat_official"
                  sat_external_id := some external_id
                  sat_ibn := none
                  question_text := question_text
                  stimulus := stimulus
                  question_type := qtype
                  skill_id := skill_id
                  sat_program := overview.program.getD "SAT"
                  difficulty_band := overview.score_band_range_cd.getD 3
                  difficulty_letter := overview.difficulty
                  answer_options := some processed_answer_options
                  correct_answers := correct_answers
                  explanation := question.rationale
                  domain_id := domain_id
                  subject_id := subject_id
                  is_active := true }
              match env.upsert "sat_external_id" data with
              | Except.error _ => (AddStatus.failed, some data)
              | Except.ok rows =>
                if !rows.isEmpty then (AddStatus.imported, some data)
                else (AddStatus.duplicate, some data)
            else if qtype == "spr" then
              let correct_answers := keysFallback question.keys question.correct_answers
              let question_text := preprocess_mathml_content (question.stem.getD "")
              let stimulus :=
                if strTruthy question.stimulus then
                  some (preprocess_mathml_content (question.stimulus.getD ""))
                else none
              let data : QuestionRecord :=
                { origin := "sat_official"
                  sat_external_id := some external_id
                  sat_ibn := none
                  question_text := question_text
                  stimulus := stimulus
                  question_type := qtype
                  skill_id := skill_id
                  sat_program := overview.program.getD "SAT"
                  difficulty_band := overview.score_band_range_cd.getD 3
                  difficulty_letter := overview.difficulty
                  answer_options := none
                  correct_answers := correct_answers
                  explanation := question.rationale
                  domain_id := domain_id
                  subject_id := subject_id
                  is_active := true }
              match env.upsert "sat_external_id" data with
              | Except.error _ => (AddStatus.failed, some data)
              | Except.ok rows =>
                if !rows.isEmpty then (AddStatus.imported, some data)
                else (AddStatus.duplicate, some data)
            else (AddStatus.skipped, none)
        | _ => (AddStatus.skipped, none)

/-! Section: Counters and the two per-item loops -/

/-- The four per-run statistics both loops keep. -/
structure Counters where
  imported : Nat
  duplicates : Nat
  skipped : Nat
  failed : Nat
deriving DecidableEq

/-- All-zero counters. -/
def zeroC : Counters := ⟨0, 0, 0, 0⟩

/-- Increment the one counter selected by a status. -/
def bumpC (c : Counters) : AddStatus → Counters
  | AddStatus.imported => { c with imported := c.imported + 1 }
  | AddStatus.duplicate => { c with duplicates := c.duplicates + 1 }
  | AddStatus.skipped => { c with skipped := c.skipped + 1 }
  | AddStatus.failed => { c with failed := c.failed + 1 }

/-- Componentwise sum of counters. -/
def addC (a b : Counters) : Counters :=
  ⟨a.imported + b.imported, a.duplicates + b.duplicates,
   a.skipped + b.skipped, a.failed + b.failed⟩

/-- Total of the four counters. -/
def sumC (c : Counters) : Nat :=
  c.imported + c.duplicates + c.skipped + c.failed

/-- Fetch dispatch `ResumableSATImporter.fetch_question_details` (lines 318-339):
dispatch on which identifier is truthy; all transport errors are caught
and become `none`. -/
def fetch_question_details (env : ImportEnv) (external_id ibn : Option String) :
    Option Detail :=
  if strTruthy external_id then env.fetchNewApi (external_id.getD "")
  else if strTruthy ibn then env.fetchOldApi (ibn.getD "")
  else none

/-- The body of the window loop of `import_with_resume` (lines 381-432),
as the status whose counter the iteration increments: no identifier →
skipped; detail fetch returned `None` → failed; otherwise the status
`add_question` returns. -/
def itemOutcome (env : ImportEnv) (overview : OverviewItem) : AddStatus :=
  if !strTruthy (pyOr overview.external_id overview.ibn) then AddStatus.skipped
  else
    match fetch_question_details env overview.external_id overview.ibn with
    | none => AddStatus.failed
    | some question_details => (add_question env overview question_details).status

/-- Index range `range(start_index, end_index)` as the list
`[s, s+1, ..., s+n-1]`. -/
def idxList (s : Nat) : Nat → List Nat
  | 0 => []
  | n + 1 => s :: idxList (s + 1) n

/-- The counter state after running the window loop
`for i in range(start_index, end_index)` of `import_with_resume`
(lines 370-435) over a fixed overview list. -/
def runWindow (env : ImportEnv) (overview_list : List OverviewItem)
    (start_index end_index : Nat) : Counters :=
  (idxList start_index (end_index - start_index)).foldl
    (fun cnt i => bumpC cnt (itemOutcome env (overview_list.getD i defaultOverview)))
    zeroC

/-- Orchestrator `import_with_resume` (lines 341-460) for a given fresh overview list:
`none` models the `False` early returns (empty overview, start index past
the end); otherwise the returned next start index (`end_index`) and the
session counters. -/
def import_with_resume (env : ImportEnv) (overview_list : List OverviewItem)
    (start_index : Nat) (max_questions : Option Int) : Option (Nat × Counters) :=
  if overview_list.isEmpty then none
  else if overview_list.length ≤ start_index then none
  else
    let end_index := (compute_end_index start_index overview_list.length max_questions).toNat
    some (end_index, runWindow env overview_list start_index end_index)

/-- The final script's `fetch_question_details` threaded with the
`timeout_occurred` flag: a raised `RequestException` returns `None` and
sets the flag; a null JSON body returns `None` without touching it. -/
def fetch_question_details_final (env : FinalEnv) (external_id : String) (tflag : Bool) :
    Option NewDetail × Bool :=
  match env.fetchDetail external_id with
  | FetchResF.ok d => (some d, tflag)
  | FetchResF.nullData => (none, tflag)
  | FetchResF.err => (none, true)

/-- The per-event item loop of
`SATQuestionImporter.process_domain_questions` (lines 379-413), with the
`timeout_occurred` flag and the counters as explicit state: id-less items
are skipped; after each detail fetch the flag is checked and a set flag
breaks out of the loop with no counter increment for the in-flight item;
a `None` detail (with clear flag) counts as failed; otherwise
`add_question` increments its status counter. -/
def process_domain_items (env : FinalEnv) : List OverviewItem → Bool → Counters → Counters
  | [], _, cnt => cnt
  | overview :: rest, tflag, cnt =>
    let external_id? := pyOr overview.external_id overview.externalid
    if !strTruthy external_id? then
      process_domain_items env rest tflag (bumpC cnt AddStatus.skipped)
    else
      match fetch_question_details_final env (external_id?.getD "") tflag with
      | (question_details?, tflag') =>
        if tflag' then cnt
        else
          match question_details? with
          | none => process_domain_items env rest tflag' (bumpC cnt AddStatus.failed)
          | some d =>
            process_domain_items env rest tflag'
              (bumpC cnt (add_question_final env overview d).1)

/-! Section: Lemmas about `headMatches`, `occursB` and `repF`

These support the idempotence claim about `preprocess_mathml`: replacing
a pattern cannot leave or create an occurrence of either pattern when the
replacement strings overlap neither pattern, so a second pass is the
identity. -/

theorem headMatches_length_le :
    ∀ {q s : List Char}, headMatches q s = true → q.length ≤ s.length
  | [], _, _ => Nat.zero_le _
  | p :: ps, [], h => by simp [headMatches] at h
  | p :: ps, c :: cs, h => by
    simp only [headMatches, Bool.and_eq_true] at h
    simpa using Nat.succ_le_succ (headMatches_length_le h.2)

theorem headMatches_append_left (b : List Char) :
    ∀ (q a : List Char), q.length ≤ a.length → headMatches q (a ++ b) = headMatches q a
  | [], _, _ => rfl
  | p :: ps, [], h => by simp at h
  | p :: ps, c :: cs, h => by
    show (p == c && headMatches ps (cs ++ b)) = (p == c && headMatches ps cs)
    rw [headMatches_append_left b ps cs (by simpa using h)]

theorem headMatches_append_split (b : List Char) :
    ∀ (a q : List Char), a.length ≤ q.length →
      headMatches q (a ++ b)
        = (headMatches (q.take a.length) a && headMatches (q.drop a.length) b)
  | [], q, _ => by simp [headMatches]
  | c :: cs, [], h => by simp at h
  | c :: cs, p :: ps, h => by
    show (p == c && headMatches ps (cs ++ b))
        = ((p == c && headMatches (ps.take cs.length) cs) && headMatches (ps.drop cs.length) b)
    rw [headMatches_append_split b cs ps (by simpa using h), Bool.and_assoc]

theorem headMatches_comm_of_length_eq :
    ∀ (x y : List Char), x.length = y.length → headMatches x y = headMatches y x
  | [], [], _ => rfl
  | [], _ :: _, h => by simp at h
  | _ :: _, [], h => by simp at h
  | a :: xs, c :: ys, h => by
    show (a == c && headMatches xs ys) = (c == a && headMatches ys xs)
    rw [headMatches_comm_of_length_eq xs ys (by simpa using h), Bool.beq_comm]

theorem headMatches_take :
    ∀ (x y : List Char), headMatches x (y.take x.length) = headMatches x y
  | [], _ => rfl
  | a :: xs, [] => by simp [headMatches]
  | a :: xs, c :: ys => by
    show (a == c && headMatches xs (ys.take xs.length)) = (a == c && headMatches xs ys)
    rw [headMatches_take xs ys]

theorem occursB_cons (q : List Char) (c : Char) (cs : List Char) :
    occursB q (c :: cs) = (headMatches q (c :: cs) || occursB q cs) := rfl

theorem occursB_of_headMatches {q : List Char} {c : Char} {cs : List Char}
    (h : headMatches q (c :: cs) = true) : occursB q (c :: cs) = true := by
  rw [occursB_cons, h, Bool.true_or]

theorem occursB_cons_false {q : List Char} {c : Char} {cs : List Char}
    (h : occursB q (c :: cs) = false) :
    headMatches q (c :: cs) = false ∧ occursB q cs = false := by
  rw [occursB_cons, Bool.or_eq_false_iff] at h
  exact h

theorem occursB_drop {q s : List Char} (h : occursB q s = false) :
    ∀ n, occursB q (s.drop n) = false := by
  induction s with
  | nil => intro n; rw [List.drop_eq_nil_of_eq_nil rfl]; exact h
  | cons c cs ih =>
    intro n
    match n with
    | 0 => exact h
    | n + 1 => exact ih (occursB_cons_false h).2 n

theorem occursB_append_false {q : List Char} (b : List Char) :
    ∀ a : List Char,
      (∀ j, j < a.length → headMatches q (a.drop j ++ b) = false) →
      occursB q b = false → occursB q (a ++ b) = false
  | [], _, hb => hb
  | x :: as, ha, hb => by
    have h0 := ha 0 (Nat.succ_pos _)
    simp only [List.drop_zero, List.cons_append] at h0
    rw [List.cons_append, occursB_cons, h0, Bool.false_or]
    exact occursB_append_false b as (fun j hj => ha (j + 1) (Nat.succ_lt_succ hj)) hb

/-- If a non-empty trailing part of `t` heads the output of `repF`, it
already heads the input, provided no trailing part of `t` heads `repl`. -/
theorem repF_trail (p : Char) (ps repl t : List Char)
    (htlen : t.length ≤ repl.length)
    (hC1 : ∀ k, k < t.length → headMatches (t.drop k) repl = false) :
    ∀ fuel s, s.length ≤ fuel → ∀ k, k < t.length →
      headMatches (t.drop k) (repF p ps repl fuel s) = true →
      headMatches (t.drop k) s = true := by
  intro fuel
  induction fuel with
  | zero =>
    intro s hs k hk hm
    match s, hs with
    | [], _ => exact hm
  | succ fuel ih =>
    intro s hs k hk hm
    match s with
    | [] => exact hm
    | c :: cs =>
      rw [repF] at hm
      by_cases hbr : headMatches (p :: ps) (c :: cs)
      · rw [if_pos hbr] at hm
        rw [headMatches_append_left _ _ repl (by rw [List.length_drop]; omega)] at hm
        rw [hC1 k hk] at hm
        exact absurd hm (by simp)
      · rw [if_neg hbr] at hm
        rw [List.drop_eq_getElem_cons hk] at hm ⊢
        simp only [headMatches, Bool.and_eq_true] at hm ⊢
        obtain ⟨h1, h2⟩ := hm
        refine ⟨h1, ?_⟩
        rcases Nat.lt_or_ge (k + 1) t.length with hlt | hge
        · exact ih cs (by simpa using hs) (k + 1) hlt h2
        · rw [List.drop_eq_nil_of_le hge]
          rfl

/-- Core no-occurrence lemma: the output of a full `repF` pass contains
no occurrence of the pattern, provided the pattern does not overlap the
replacement in any alignment. -/
theorem repF_no_occur (p : Char) (ps repl : List Char)
    (hlen : (p :: ps).length ≤ repl.length)
    (hC1 : ∀ k, k < (p :: ps).length → headMatches ((p :: ps).drop k) repl = false)
    (hC2 : ∀ j, j < repl.length → headMatches (p :: ps) (repl.drop j) = false)
    (hC3 : ∀ j, j < repl.length → headMatches (repl.drop j) (p :: ps) = false) :
    ∀ fuel s, s.length ≤ fuel → occursB (p :: ps) (repF p ps repl fuel s) = false := by
  intro fuel
  induction fuel with
  | zero =>
    intro s hs
    match s, hs with
    | [], _ => rfl
  | succ fuel ih =>
    intro s hs
    match s with
    | [] => rfl
    | c :: cs =>
      rw [repF]
      by_cases hbr : headMatches (p :: ps) (c :: cs)
      · rw [if_pos hbr]
        refine occursB_append_false _ _ (fun j hj => ?_)
          (ih _ (by rw [List.length_drop]; simp at hs; omega))
        rcases Nat.lt_or_ge ((repl.drop j).length) (p :: ps).length with hsh | hlong
        · rw [headMatches_append_split _ _ _ (Nat.le_of_lt hsh)]
          have he : ((p :: ps).take (repl.drop j).length).length = (repl.drop j).length := by
            rw [List.length_take]; omega
          rw [headMatches_comm_of_length_eq _ _ he, headMatches_take, hC3 j hj]
          rfl
        · rw [headMatches_append_left _ _ _ hlong, hC2 j hj]
      · rw [if_neg hbr]
        rw [occursB_cons, ih cs (by simpa using hs), Bool.or_false]
        cases hmm : headMatches (p :: ps) (c :: repF p ps repl fuel cs) with
        | false => rfl
        | true =>
          exfalso
          rw [headMatches, Bool.and_eq_true] at hmm
          match ps, hmm with
          | [], hmm =>
            exact hbr (by rw [headMatches, hmm.1]; rfl)
          | p1 :: ps1, hmm =>
            have htail := repF_trail p (p1 :: ps1) repl (p :: p1 :: ps1) hlen hC1
              fuel cs (by simpa using hs) 1 (by simp)
            have : headMatches (p1 :: ps1) cs = true := htail hmm.2
            exact hbr (by rw [headMatches, hmm.1, this]; rfl)

/-- Replacement preservation lemma: a full `repF` pass for pattern
`p :: ps` cannot create an occurrence of a different target pattern
`t0 :: ts`, provided the target does not overlap the replacement. -/
theorem repF_no_create (p : Char) (ps repl : List Char) (t0 : Char) (ts : List Char)
    (hlen : (t0 :: ts).length ≤ repl.length)
    (hC1 : ∀ k, k < (t0 :: ts).length → headMatches ((t0 :: ts).drop k) repl = false)
    (hC2 : ∀ j, j < repl.length → headMatches (t0 :: ts) (repl.drop j) = false)
    (hC3 : ∀ j, j < repl.length → headMatches (repl.drop j) (t0 :: ts) = false) :
    ∀ fuel s, s.length ≤ fuel → occursB (t0 :: ts) s = false →
      occursB (t0 :: ts) (repF p ps repl fuel s) = false := by
  intro fuel
  induction fuel with
  | zero =>
    intro s hs hfree
    match s, hs with
    | [], _ => rfl
  | succ fuel ih =>
    intro s hs hfree
    match s with
    | [] => rfl
    | c :: cs =>
      rw [repF]
      by_cases hbr : headMatches (p :: ps) (c :: cs)
      · rw [if_pos hbr]
        refine occursB_append_false _ _ (fun j hj => ?_)
          (ih _ (by rw [List.length_drop]; simp at hs; omega) ?_)
        · rcases Nat.lt_or_ge ((repl.drop j).length) (t0 :: ts).length with hsh | hlong
          · rw [headMatches_append_split _ _ _ (Nat.le_of_lt hsh)]
            have he : ((t0 :: ts).take (repl.drop j).length).length = (repl.drop j).length := by
              rw [List.length_take]; omega
            rw [headMatches_comm_of_length_eq _ _ he, headMatches_take, hC3 j hj]
            rfl
          · rw [headMatches_append_left _ _ _ hlong, hC2 j hj]
        · exact occursB_drop (occursB_cons_false hfree).2 ps.length
      · rw [if_neg hbr]
        rw [occursB_cons, ih cs (by simpa using hs) (occursB_cons_false hfree).2,
          Bool.or_false]
        cases hmm : headMatches (t0 :: ts) (c :: repF p ps repl fuel cs) with
        | false => rfl
        | true =>
          exfalso
          rw [headMatches, Bool.and_eq_true] at hmm
          have hin : headMatches (t0 :: ts) (c :: cs) = true := by
            match ts, hmm with
            | [], hmm => rw [headMatches, hmm.1]; rfl
            | t1 :: ts1, hmm =>
              have htail := repF_trail p ps repl (t0 :: t1 :: ts1) hlen hC1
                fuel cs (by simpa using hs) 1 (by simp)
              have h3 : headMatches (t1 :: ts1) cs = true := htail hmm.2
              rw [headMatches, hmm.1, h3]
              rfl
          rw [(occursB_cons_false hfree).1] at hin
          exact absurd hin (by simp)

/-- A pass of `repF` over a string with no occurrence of its pattern is
the identity. -/
theorem repF_id (p : Char) (ps repl : List Char) :
    ∀ fuel s, s.length ≤ fuel → occursB (p :: ps) s = false →
      repF p ps repl fuel s = s := by
  intro fuel
  induction fuel with
  | zero =>
    intro s hs _
    match s, hs with
    | [], _ => rfl
  | succ fuel ih =>
    intro s hs hfree
    match s with
    | [] => rfl
    | c :: cs =>
      rw [repF, if_neg (by rw [(occursB_cons_false hfree).1]; simp)]
      rw [ih cs (by simpa using hs) (occursB_cons_false hfree).2]

/-! Section: Counter algebra and loop lemmas -/

theorem addC_zero_right (c : Counters) : addC c zeroC = c := by
  simp [addC, zeroC]

theorem addC_assoc (a b c : Counters) : addC (addC a b) c = addC a (addC b c) := by
  simp [addC, Nat.add_assoc]

theorem bumpC_eq_addC (c : Counters) (st : AddStatus) :
    bumpC c st = addC c (bumpC zeroC st) := by
  cases st <;> simp [bumpC, addC, zeroC]

theorem sumC_bump (c : Counters) (st : AddStatus) : sumC (bumpC c st) = sumC c + 1 := by
  cases st <;> simp [sumC, bumpC] <;> omega

theorem foldl_addC_shift (g : Counters → Nat → Counters)
    (hg : ∀ (c : Counters) (i : Nat), g c i = addC c (g zeroC i)) :
    ∀ (l : List Nat) (c : Counters), l.foldl g c = addC c (l.foldl g zeroC)
  | [], c => (addC_zero_right c).symm
  | i :: l, c => by
    simp only [List.foldl_cons]
    rw [foldl_addC_shift g hg l (g c i), foldl_addC_shift g hg l (g zeroC i), hg c i,
      addC_assoc]

theorem sumC_foldl (g : Nat → AddStatus) :
    ∀ (l : List Nat) (c : Counters),
      sumC (l.foldl (fun cnt i => bumpC cnt (g i)) c) = sumC c + l.length
  | [], c => by simp
  | i :: l, c => by
    simp only [List.foldl_cons, List.length_cons]
    rw [sumC_foldl g l (bumpC c (g i)), sumC_bump]
    omega

theorem idxList_length : ∀ (s n : Nat), (idxList s n).length = n
  | _, 0 => rfl
  | s, n + 1 => by simp [idxList, idxList_length (s + 1) n]

theorem idxList_append : ∀ (n m s : Nat), idxList s (n + m) = idxList s n ++ idxList (s + n) m
  | 0, m, s => by simp [idxList]
  | n + 1, m, s => by
    have h : n + 1 + m = (n + m) + 1 := by omega
    rw [h]
    show s :: idxList (s + 1) (n + m) = (s :: idxList (s + 1) n) ++ idxList (s + (n + 1)) m
    rw [idxList_append n m (s + 1), List.cons_append]
    have h2 : s + 1 + n = s + (n + 1) := by omega
    rw [h2]

/-- Every window pass keeps exact accounting: the four counters add up to
the window size. -/
theorem runWindow_sum (env : ImportEnv) (ovl : List OverviewItem) (s e : Nat) :
    sumC (runWindow env ovl s e) = e - s := by
  unfold runWindow
  rw [sumC_foldl]
  simp [sumC, zeroC, idxList_length]

/-- Splitting a window at an intermediate index adds the two counter
states componentwise. -/
theorem runWindow_split (env : ImportEnv) (ovl : List OverviewItem) {s m e : Nat}
    (h1 : s ≤ m) (h2 : m ≤ e) :
    addC (runWindow env ovl s m) (runWindow env ovl m e) = runWindow env ovl s e := by
  have hg : ∀ (c : Counters) (i : Nat),
      bumpC c (itemOutcome env (ovl.getD i defaultOverview))
        = addC c (bumpC zeroC (itemOutcome env (ovl.getD i defaultOverview))) :=
    fun c _ => bumpC_eq_addC c _
  unfold runWindow
  have h3 : e - s = (m - s) + (e - m) := by omega
  rw [h3, idxList_append (m - s) (e - m) s]
  have h4 : s + (m - s) = m := by omega
  rw [h4, List.foldl_append]
  exact (foldl_addC_shift _ hg (idxList m (e - m)) _).symm

/-- Peeling the first item off a window: the rest of the window is still
processed, whatever the first item's outcome. -/
theorem runWindow_step (env : ImportEnv) (ovl : List OverviewItem) {s e : Nat} (h : s < e) :
    runWindow env ovl s e
      = addC (bumpC zeroC (itemOutcome env (ovl.getD s defaultOverview)))
          (runWindow env ovl (s + 1) e) := by
  have hg : ∀ (c : Counters) (i : Nat),
      bumpC c (itemOutcome env (ovl.getD i defaultOverview))
        = addC c (bumpC zeroC (itemOutcome env (ovl.getD i defaultOverview))) :=
    fun c _ => bumpC_eq_addC c _
  unfold runWindow
  have h3 : e - s = 1 + (e - (s + 1)) := by omega
  rw [h3, idxList_append 1 (e - (s + 1)) s, List.foldl_append]
  exact foldl_addC_shift _ hg (idxList (s + 1) (e - (s + 1))) _

/-- An item with a usable identifier whose detail fetch returns `None`
is counted as failed in the resumable loop. -/
theorem itemOutcome_failed (env : ImportEnv) (ov : OverviewItem)
    (hid : strTruthy (pyOr ov.external_id ov.ibn) = true)
    (hf : fetch_question_details env ov.external_id ov.ibn = none) :
    itemOutcome env ov = AddStatus.failed := by
  simp [itemOutcome, hid, hf]

/-- In the final script's loop, a detail-fetch timeout for the first item
aborts the event with no counter increment at all. -/
theorem process_domain_items_break (env : FinalEnv) (it : OverviewItem)
    (rest : List OverviewItem) (cnt : Counters)
    (hid : strTruthy (pyOr it.external_id it.externalid) = true)
    (herr : env.fetchDetail ((pyOr it.external_id it.externalid).getD "") = FetchResF.err) :
    process_domain_items env (it :: rest) false cnt = cnt := by
  simp [process_domain_items, hid, fetch_question_details_final, herr]

/-- In the final script's loop, if no detail fetch raises, every item
increments exactly one counter. -/
theorem process_domain_items_sum (env : FinalEnv) :
    ∀ (items : List OverviewItem) (cnt : Counters),
      (∀ it, it ∈ items → strTruthy (pyOr it.external_id it.externalid) = true →
        env.fetchDetail ((pyOr it.external_id it.externalid).getD "") ≠ FetchResF.err) →
      sumC (process_domain_items env items false cnt) = sumC cnt + items.length
  | [], cnt, _ => by simp [process_domain_items]
  | it :: rest, cnt, h => by
    rw [process_domain_items]
    by_cases hid : strTruthy (pyOr it.external_id it.externalid) = true
    · rw [if_neg (by simp [hid])]
      cases henv : env.fetchDetail ((pyOr it.external_id it.externalid).getD "") with
      | ok d =>
        simp only [fetch_question_details_final, henv]
        rw [if_neg (by simp)]
        rw [process_domain_items_sum env rest _ (fun x hx => h x (List.mem_cons_of_mem _ hx)),
          sumC_bump]
        simp [List.length_cons]
        omega
      | nullData =>
        simp only [fetch_question_details_final, henv]
        rw [if_neg (by simp)]
        rw [process_domain_items_sum env rest _ (fun x hx => h x (List.mem_cons_of_mem _ hx)),
          sumC_bump]
        simp [List.length_cons]
        omega
      | err => exact absurd henv (h it (List.mem_cons_self _ _) hid)
    · rw [if_pos (by simpa using hid)]
      rw [process_domain_items_sum env rest _ (fun x hx => h x (List.mem_cons_of_mem _ hx)),
        sumC_bump]
      simp [List.length_cons]
      omega

/-! Section: Idempotence of the markup normaliser -/

theorem preprocess_mathml_of_ne (x : String) (hx : (x == "") = false) :
    preprocess_mathml x
      = String.mk (repF '<' ("/mfenced>".data) ("<mo>)</mo>".data)
          (repF '<' ("mfenced>".data) ("<mo>(</mo>".data) x.data.length x.data).length
          (repF '<' ("mfenced>".data) ("<mo>(</mo>".data) x.data.length x.data)) := by
  unfold preprocess_mathml
  rw [if_neg (by simp [hx])]

theorem preprocess_mathml_idem (x : String) :
    preprocess_mathml (preprocess_mathml x) = preprocess_mathml x := by
  cases hx : x == "" with
  | true =>
    have h0 : preprocess_mathml x = x := by
      unfold preprocess_mathml
      rw [if_pos hx]
    rw [h0, h0]
  | false =>
    have hpm := preprocess_mathml_of_ne x hx
    generalize hL1 : repF '<' ("mfenced>".data) ("<mo>(</mo>".data) x.data.length x.data = L1
      at hpm
    generalize hL2 : repF '<' ("/mfenced>".data) ("<mo>)</mo>".data) L1.length L1 = L2 at hpm
    have f1 : occursB ('<' :: "mfenced>".data) L1 = false := by
      rw [← hL1]
      exact repF_no_occur _ _ _ (by decide) (by decide) (by decide) (by decide) _ _
        (Nat.le_refl _)
    have f2 : occursB ('<' :: "/mfenced>".data) L2 = false := by
      rw [← hL2]
      exact repF_no_occur _ _ _ (by decide) (by decide) (by decide) (by decide) _ _
        (Nat.le_refl _)
    have f3 : occursB ('<' :: "mfenced>".data) L2 = false := by
      rw [← hL2]
      exact repF_no_create '<' ("/mfenced>".data) ("<mo>)</mo>".data) '<' ("mfenced>".data)
        (by decide) (by decide) (by decide) (by decide) _ _ (Nat.le_refl _) f1
    rw [hpm]
    cases hy : String.mk L2 == "" with
    | true =>
      unfold preprocess_mathml
      rw [if_pos hy]
    | false =>
      unfold preprocess_mathml
      rw [if_neg (by simp [hy])]
      show String.mk (repF '<' ("/mfenced>".data) ("<mo>)</mo>".data)
          (repF '<' ("mfenced>".data) ("<mo>(</mo>".data) L2.length L2).length
          (repF '<' ("mfenced>".data) ("<mo>(</mo>".data) L2.length L2)) = String.mk L2
      rw [repF_id '<' ("mfenced>".data) ("<mo>(</mo>".data) L2.length L2 (Nat.le_refl _) f3]
      rw [repF_id '<' ("/mfenced>".data) ("<mo>)</mo>".data) L2.length L2 (Nat.le_refl _) f2]

/-! Section: Concrete fixtures used by witnesses and counterexamples -/

/-- Overview item with a valid external id and a mapped skill code. -/
def wOv1 : OverviewItem := ⟨some "Q1", none, none, some "H.A.", none, none, none⟩

/-- Overview item whose detail fetch fails under `wEnv`. -/
def wOvF : OverviewItem := ⟨some "F1", none, none, some "H.A.", none, none, none⟩

/-- Resumable-importer environment: clean duplicate checks, succeeding
upsert, detail fetch failing exactly for id `F1`. -/
def wEnv : ImportEnv :=
  { queryByExternalId := fun _ => Except.ok []
    queryByIbn := fun _ => Except.ok []
    upsert := fun _ _ => Except.ok ["row"]
    fetchNewApi := fun eid =>
      if eid == "F1" then none
      else some (Detail.dict ⟨some "stem", none, some "why", some "mcq",
        some [⟨"A", some "<mfenced>1</mfenced>", none, none⟩], KeysVal.str "A",
        KeysVal.absent⟩)
    fetchOldApi := fun _ => none }

/-- Three-item overview list: import, fetch failure, import. -/
def wOvl : List OverviewItem := [wOv1, wOvF, wOv1]

/-- Final-script overview items. -/
def cOvA : OverviewItem := ⟨some "A1", none, none, some "H.A.", none, none, none⟩

/-- Second final-script overview item. -/
def cOvB : OverviewItem := ⟨some "B1", none, none, some "H.A.", none, none, none⟩

/-- Final-script environment whose every detail fetch raises. -/
def cEnvErr : FinalEnv :=
  { fetchDetail := fun _ => FetchResF.err
    upsert := fun _ _ => Except.ok ["row"] }

/-- Final-script environment: id `A1` fetches fine, everything else
raises. -/
def cEnvPart : FinalEnv :=
  { fetchDetail := fun eid =>
      if eid == "A1" then
        FetchResF.ok ⟨some "stem", none, none, some "mcq",
          some [⟨"A", some "x", none, none⟩], KeysVal.str "A", KeysVal.absent⟩
      else FetchResF.err
    upsert := fun _ _ => Except.ok ["row"] }

/-! Section: Claim theorems -/

/-- Claim C3, counterexample (cited loop of
`populate_sat_questions_final.py`): a detail-fetch timeout for the first
of two valid items leaves every counter at zero — the failed counter is
not incremented and the loop aborts the partition instead of proceeding
to the next item. -/
theorem claim_C3_counterexample :
    process_domain_items cEnvErr [cOvA, cOvB] false zeroC = zeroC
    ∧ (process_domain_items cEnvErr [cOvA, cOvB] false zeroC).failed = 0 := by
  decide

/-- Claim C3, amended: in the resumable importer a failed detail fetch
for an item with a valid identifier yields status `failed` (exactly the
failed counter increments) and the window loop proceeds with the
remaining items; in the final populate script, however, a detail-fetch
timeout aborts the current event's loop with no counter increment for
the in-flight item. -/
theorem claim_C3_amended :
    (∀ (env : ImportEnv) (ov : OverviewItem),
      strTruthy (pyOr ov.external_id ov.ibn) = true →
      fetch_question_details env ov.external_id ov.ibn = none →
      itemOutcome env ov = AddStatus.failed)
    ∧ (∀ (env : ImportEnv) (ovl : List OverviewItem) (s e : Nat), s < e →
        runWindow env ovl s e
          = addC (bumpC zeroC (itemOutcome env (ovl.getD s defaultOverview)))
              (runWindow env ovl (s + 1) e))
    ∧ (∀ (env : FinalEnv) (it : OverviewItem) (rest : List OverviewItem) (cnt : Counters),
        strTruthy (pyOr it.external_id it.externalid) = true →
        env.fetchDetail ((pyOr it.external_id it.externalid).getD "") = FetchResF.err →
        process_domain_items env (it :: rest) false cnt = cnt) :=
  ⟨itemOutcome_failed,
   fun env ovl _ _ h => runWindow_step env ovl h,
   process_domain_items_break⟩

/-- Witness for the amended claim C3 at concrete inputs. -/
theorem claim_C3_witness :
    itemOutcome wEnv wOvF = AddStatus.failed
    ∧ runWindow wEnv wOvl 1 3
        = addC (bumpC zeroC (itemOutcome wEnv (wOvl.getD 1 defaultOverview)))
            (runWindow wEnv wOvl 2 3)
    ∧ process_domain_items cEnvErr [cOvA] false zeroC = zeroC :=
  ⟨claim_C3_amended.1 wEnv wOvF (by decide) (by decide),
   claim_C3_amended.2.1 wEnv wOvl 1 3 (by decide),
   claim_C3_amended.2.2 cEnvErr cOvA [] zeroC (by decide) (by decide)⟩

/-- Claim C4, counterexample (cited loop of
`populate_sat_questions_final.py`): over two items the first is imported
but the second's detail fetch times out, so the counters sum to 1, not
to the 2 items of the window — a timeout run breaks the exact-accounting
equation. -/
theorem claim_C4_counterexample :
    sumC (process_domain_items cEnvPart [cOvA, cOvB] false zeroC) = 1
    ∧ ([cOvA, cOvB] : List OverviewItem).length = 2 := by
  decide

/-- Claim C4, amended: the resumable importer's window loop always
increments exactly one of the four counters per index, so they sum to
`end_index - start_index`; the final populate script's loop satisfies
the same accounting only on runs in which no detail fetch raises (a
timeout aborts the event, leaving the in-flight and remaining items
uncounted). -/
theorem claim_C4_amended :
    (∀ (env : ImportEnv) (ovl : List OverviewItem) (s e : Nat),
      sumC (runWindow env ovl s e) = e - s)
    ∧ (∀ (env : FinalEnv) (items : List OverviewItem),
        (∀ it, it ∈ items → strTruthy (pyOr it.external_id it.externalid) = true →
          env.fetchDetail ((pyOr it.external_id it.externalid).getD "") ≠ FetchResF.err) →
        sumC (process_domain_items env items false zeroC) = items.length) :=
  ⟨runWindow_sum, fun env items h => by
    rw [process_domain_items_sum env items zeroC h]
    simp [sumC, zeroC]⟩

/-- Witness for the amended claim C4 at concrete inputs. -/
theorem claim_C4_witness :
    sumC (runWindow wEnv wOvl 0 3) = 3
    ∧ sumC (process_domain_items cEnvPart [cOvA] false zeroC) = 1 :=
  ⟨by rw [claim_C4_amended.1 wEnv wOvl 0 3],
   claim_C4_amended.2 cEnvPart [cOvA] (by decide)⟩

/-- Claim C5: the markup normaliser is idempotent, and maps
`"<mfenced>x</mfenced>"` to exactly `"<mo>(</mo>x<mo>)</mo>"`. -/
theorem claim_C5 :
    (∀ x : String, preprocess_mathml (preprocess_mathml x) = preprocess_mathml x)
    ∧ preprocess_mathml "<mfenced>x</mfenced>" = "<mo>(</mo>x<mo>)</mo>" :=
  ⟨preprocess_mathml_idem, by decide⟩

/-- Claim C7, counterexample: with `start_index < total_questions` and an
explicit max-count argument of `0`, the code computes
`min(start + 422, total)` (Python `if max_questions:` treats `0` as
absent), not the claimed `min(start + max_count, total)`. -/
theorem claim_C7_counterexample :
    (0 : Nat) < 500
    ∧ compute_end_index 0 500 (some 0) = 422
    ∧ compute_end_index 0 500 (some 0) ≠ min ((0 : Int) + 0) ((500 : Int)) := by
  decide

/-- Claim C7, amended: for `start_index < total_questions` the window end
is `min(start_index + max_count, total)` whenever a nonzero max-count is
given, and `min(start_index + 422, total)` when the argument is omitted
(or zero, by Python truthiness). -/
theorem claim_C7_amended (start_index total_questions : Nat) (m : Int)
    (hlt : start_index < total_questions) (hm : m ≠ 0) :
    compute_end_index start_index total_questions (some m)
        = min ((start_index : Int) + m) ((total_questions : Int))
    ∧ compute_end_index start_index total_questions none
        = min ((start_index : Int) + 422) ((total_questions : Int)) := by
  constructor
  · simp [compute_end_index, intTruthy, hm]
  · simp [compute_end_index, intTruthy, RATE_LIMIT_THRESHOLD]

/-- Witness for the amended claim C7 at concrete inputs. -/
theorem claim_C7_witness :
    compute_end_index 10 500 (some 50) = 60 ∧ compute_end_index 10 500 none = 432 := by
  have h := claim_C7_amended 10 500 50 (by decide) (by decide)
  exact ⟨by rw [h.1]; decide, by rw [h.2]; decide⟩

/-- Claim C8: after every progress update the completed flag is true
exactly when `next_start_index ≥ total_questions`, the four counters are
merged additively onto the stored values (with zero defaults for a fresh
partition), and `total_questions` / `next_start_index` are overwritten. -/
theorem claim_C8 (old : Option ComboProgress)
    (total next imported duplicates skipped failed now : Nat) :
    ((update_combo_progress old total next imported duplicates skipped failed now).completed
        = true ↔ next ≥ total)
    ∧ (update_combo_progress old total next imported duplicates skipped failed now).imported
        = (match old with | none => 0 | some p => p.imported) + imported
    ∧ (update_combo_progress old total next imported duplicates skipped failed now).duplicates
        = (match old with | none => 0 | some p => p.duplicates) + duplicates
    ∧ (update_combo_progress old total next imported duplicates skipped failed now).skipped
        = (match old with | none => 0 | some p => p.skipped) + skipped
    ∧ (update_combo_progress old total next imported duplicates skipped failed now).failed
        = (match old with | none => 0 | some p => p.failed) + failed
    ∧ (update_combo_progress old total next imported duplicates skipped failed now).total_questions
        = total
    ∧ (update_combo_progress old total next imported duplicates skipped failed now).next_start_index
        = next := by
  refine ⟨?_, rfl, rfl, rfl, rfl, rfl, rfl⟩
  simp [update_combo_progress]

/-- Claim C9: with a stable overview list and deterministic per-item
outcomes, a run over `[s, m)` followed by a run over `[m, e)` produces,
summed, exactly the counters of one run over `[s, e)`; and every
`import_with_resume` session's counters are exactly the window fold from
its start index to the `next_start_index` it returns, so the second
invocation resuming at that index composes with the first. -/
theorem claim_C9 :
    (∀ (env : ImportEnv) (ovl : List OverviewItem) (s m e : Nat), s ≤ m → m ≤ e →
      addC (runWindow env ovl s m) (runWindow env ovl m e) = runWindow env ovl s e)
    ∧ (∀ (env : ImportEnv) (ovl : List OverviewItem) (s : Nat) (maxQ : Option Int)
        (nxt : Nat) (c : Counters),
        import_with_resume env ovl s maxQ = some (nxt, c) →
        c = runWindow env ovl s nxt) := by
  constructor
  · intro env ovl s m e h1 h2
    exact runWindow_split env ovl h1 h2
  · intro env ovl s maxQ nxt c h
    unfold import_with_resume at h
    split at h
    · exact Option.noConfusion h
    · split at h
      · exact Option.noConfusion h
      · simp only [Option.some.injEq, Prod.mk.injEq] at h
        obtain ⟨h1, h2⟩ := h
        rw [← h1, ← h2]

/-- Witness for claim C9 at concrete inputs. -/
theorem claim_C9_witness :
    addC (runWindow wEnv wOvl 0 2) (runWindow wEnv wOvl 2 3) = runWindow wEnv wOvl 0 3
    ∧ (⟨2, 0, 0, 1⟩ : Counters) = runWindow wEnv wOvl 0 3 :=
  ⟨claim_C9.1 wEnv wOvl 0 2 3 (by decide) (by decide),
   claim_C9.2 wEnv wOvl 0 none 3 ⟨2, 0, 0, 1⟩ (by decide)⟩

/-! Section: Classifier lemmas and claims C1, C2 -/

theorem dictGet_mem : ∀ {d : List (String × String)} {k v : String},
    dictGet d k = some v → (k, v) ∈ d := by
  intro d
  induction d with
  | nil => intro k v h; exact absurd h (by simp [dictGet])
  | cons hd rest ih =>
    intro k v h
    obtain ⟨a, b⟩ := hd
    by_cases hk : (k == a) = true
    · simp only [dictGet] at h
      rw [if_pos hk] at h
      obtain rfl : b = v := Option.some.inj h
      have hka : k = a := by simpa using hk
      subst hka
      exact List.mem_cons_self _ _
    · simp only [dictGet] at h
      rw [if_neg hk] at h
      exact List.mem_cons_of_mem _ (ih h)

/-- Claim C1, counterexample: `"H.Z"` is not a key of the static skill
table, yet the classifier returns `(algebra, math)` for it — the prefix
rule fires for every string starting with `"H."`, not only table keys,
so the claimed `(None, None)` result for all non-keys is false. -/
theorem claim_C1_counterexample :
    dictGet SAT_SKILL_MAPPING "H.Z" = none
    ∧ get_domain_subject_mapping "H.Z" = (some "algebra", some "math")
    ∧ get_domain_subject_mapping "H.Z" ≠ (none, none) := by
  decide

/-- Claim C1, amended: every key of the static table classifies to a
non-null (domain, subject) pair, and every string that neither starts
with one of the four math prefixes `H.`, `P.`, `Q.`, `S.` nor is a table
key yields `(None, None)` (and the function is total, so it never
raises); but a non-key string starting with a math prefix still gets the
corresponding math pair. -/
theorem claim_C1_amended (s : String) :
    ((dictGet SAT_SKILL_MAPPING s).isSome = true →
      (get_domain_subject_mapping s).1.isSome = true
      ∧ (get_domain_subject_mapping s).2.isSome = true)
    ∧ (dictGet SAT_SKILL_MAPPING s = none →
        pyStartswith s "H." = false → pyStartswith s "P." = false →
        pyStartswith s "Q." = false → pyStartswith s "S." = false →
        get_domain_subject_mapping s = (none, none)) := by
  constructor
  · intro h
    obtain ⟨v, hv⟩ := Option.isSome_iff_exists.mp h
    have hall : ∀ p ∈ SAT_SKILL_MAPPING,
        (get_domain_subject_mapping p.1).1.isSome = true
        ∧ (get_domain_subject_mapping p.1).2.isSome = true := by decide
    exact hall (s, v) (dictGet_mem hv)
  · intro hn h1 h2 h3 h4
    have hmemA : ∀ t ∈ (["CID", "INF", "COE"] : List String),
        dictGet SAT_SKILL_MAPPING t ≠ none := by decide
    have hmemB : ∀ t ∈ (["WIC", "TSP", "CTC"] : List String),
        dictGet SAT_SKILL_MAPPING t ≠ none := by decide
    have hmemC : ∀ t ∈ (["SYN", "TRA"] : List String),
        dictGet SAT_SKILL_MAPPING t ≠ none := by decide
    have hmemD : ∀ t ∈ (["BOU", "FSS"] : List String),
        dictGet SAT_SKILL_MAPPING t ≠ none := by decide
    unfold get_domain_subject_mapping
    rw [if_neg (by simp [h1]), if_neg (by simp [h2]), if_neg (by simp [h3]),
      if_neg (by simp [h4]), if_neg (fun hc => hmemA s hc hn),
      if_neg (fun hc => hmemB s hc hn), if_neg (fun hc => hmemC s hc hn),
      if_neg (fun hc => hmemD s hc hn)]

/-- Witness for the amended claim C1: a table key gets a non-null pair,
and a string outside both the table and the prefix rules gets
`(None, None)`. -/
theorem claim_C1_witness :
    ((get_domain_subject_mapping "CID").1.isSome = true
      ∧ (get_domain_subject_mapping "CID").2.isSome = true)
    ∧ get_domain_subject_mapping "XYZ" = (none, none) :=
  ⟨(claim_C1_amended "CID").1 (by decide),
   (claim_C1_amended "XYZ").2 (by decide) (by decide) (by decide) (by decide) (by decide)⟩

/-- Legacy mcq question with choices `a`, `b` and `correct_choice = "a"`. -/
def cOldMcq : OldItem :=
  ⟨some "p", none, some ⟨some "r", none, [("a", ⟨some "b1"⟩), ("b", ⟨some "b2"⟩)], some "a"⟩⟩

/-- Legacy SPR question. -/
def cOldSpr : OldItem := ⟨some "p", some "body", some ⟨some "r", some "SPR", [], none⟩⟩

/-- Claim C2, counterexample: for a legacy mcq whose `correct_choice` is
`"a"`, the produced options are `A`, `B` with `is_correct = false` on
every option — including the one matching the upper-cased correct choice,
where the claim demands `true`; the correct choice is recorded only in
the separate `correct_answers` list. -/
theorem claim_C2_counterexample :
    (normalize_old cOldMcq).answer_options
        = some [⟨"A", "b1", false⟩, ⟨"B", "b2", false⟩]
    ∧ (normalize_old cOldMcq).correct_answers = ["A"]
    ∧ ((normalize_old cOldMcq).answer_options.getD []).all
        (fun o => o.is_correct == false) = true := by
  decide

/-- Claim C2, amended: in legacy normalization, `style = "SPR"` yields an
SPR record with no options and no correct answers; otherwise the record
is an mcq whose options (built only when the keyed choices mapping is
non-empty, else left null) carry the upper-cased keys as ids and
`is_correct = false` on every option, the match with the legacy
`correct_choice` being recorded instead as the separate
`correct_answers = [correct_choice.upper()]` (empty when `correct_choice`
is falsy). -/
theorem claim_C2_amended (q_data : OldItem) :
    ((q_data.answer.getD defaultOldAnswer).style.getD "Multiple Choice" = "SPR" →
      (normalize_old q_data).question_type = "spr"
      ∧ (normalize_old q_data).answer_options = none
      ∧ (normalize_old q_data).correct_answers = [])
    ∧ ((q_data.answer.getD defaultOldAnswer).style.getD "Multiple Choice" ≠ "SPR" →
      (normalize_old q_data).question_type = "mcq"
      ∧ ((normalize_old q_data).answer_options = none
          ↔ (q_data.answer.getD defaultOldAnswer).choices = [])
      ∧ (∀ opts, (normalize_old q_data).answer_options = some opts →
          opts.map (fun o => o.id)
            = (q_data.answer.getD defaultOldAnswer).choices.map (fun kc => pyUpper kc.1)
          ∧ ∀ o ∈ opts, o.is_correct = false)
      ∧ ((q_data.answer.getD defaultOldAnswer).correct_choice.getD "" = "" →
          (normalize_old q_data).correct_answers = [])
      ∧ ((q_data.answer.getD defaultOldAnswer).correct_choice.getD "" ≠ "" →
          (normalize_old q_data).correct_answers
            = [pyUpper ((q_data.answer.getD defaultOldAnswer).correct_choice.getD "")])) := by
  constructor
  · intro hspr
    have hb : ((q_data.answer.getD defaultOldAnswer).style.getD "Multiple Choice" == "SPR")
        = true := by simp [hspr]
    refine ⟨?_, ?_, ?_⟩ <;> simp [normalize_old, hb]
  · intro hnspr
    have hb : ((q_data.answer.getD defaultOldAnswer).style.getD "Multiple Choice" == "SPR")
        = false := by simp [hnspr]
    refine ⟨?_, ?_, ?_, ?_, ?_⟩
    · simp [normalize_old, hb]
    · simp only [normalize_old, hb, Bool.false_eq_true, if_false]
      by_cases hc : (q_data.answer.getD defaultOldAnswer).choices.isEmpty = true
      · rw [if_pos hc]
        simp only [List.isEmpty_iff] at hc
        simp [hc]
      · rw [if_neg hc]
        simp only [List.isEmpty_iff] at hc
        simp [hc]
    · intro opts hopts
      simp only [normalize_old, hb, Bool.false_eq_true, if_false] at hopts
      by_cases hc : (q_data.answer.getD defaultOldAnswer).choices.isEmpty = true
      · rw [if_pos hc] at hopts
        exact absurd hopts (by simp)
      · rw [if_neg hc] at hopts
        obtain rfl : _ = opts := Option.some.inj hopts
        constructor
        · rw [List.map_map]
          rfl
        · intro o ho
          simp only [List.mem_map] at ho
          obtain ⟨kc, _, rfl⟩ := ho
          rfl
    · intro hcc
      have hb2 : ((q_data.answer.getD defaultOldAnswer).correct_choice.getD "" == "")
          = true := by simp [hcc]
      simp [normalize_old, hb, hb2]
    · intro hcc
      have hb2 : ((q_data.answer.getD defaultOldAnswer).correct_choice.getD "" == "")
          = false := by simp [hcc]
      simp [normalize_old, hb, hb2]

/-- Witness for the amended claim C2 at concrete legacy payloads. -/
theorem claim_C2_witness :
    ((normalize_old cOldSpr).question_type = "spr"
      ∧ (normalize_old cOldSpr).answer_options = none
      ∧ (normalize_old cOldSpr).correct_answers = [])
    ∧ (normalize_old cOldMcq).question_type = "mcq" :=
  ⟨(claim_C2_amended cOldSpr).1 (by decide),
   ((claim_C2_amended cOldMcq).2 (by decide)).1⟩

/-! Section: Record-shape lemmas and claims C6, C10 -/

/-- Every normalisation outcome of the resumable importer pairs options
and question type consistently: options are only ever built (non-empty)
for an mcq, and non-mcq outcomes carry no options. -/
theorem normOut_inv (n : NormOut)
    (hn : n = defaultNorm ∨ (∃ d, n = normalize_new d) ∨ (∃ o, n = normalize_old o)) :
    (∀ l, n.answer_options = some l → n.question_type = "mcq" ∧ l ≠ [])
    ∧ (n.question_type ≠ "mcq" → n.answer_options = none) := by
  rcases hn with rfl | ⟨d, rfl⟩ | ⟨o, rfl⟩
  · exact ⟨fun l h => absurd h (by simp [defaultNorm]), fun _ => rfl⟩
  · constructor
    · intro l h
      simp only [normalize_new] at h
      by_cases hcond : (d.type.getD "mcq" == "mcq" && listTruthy d.answerOptions) = true
      · rw [if_pos hcond] at h
        rw [Bool.and_eq_true] at hcond
        have htype : d.type.getD "mcq" = "mcq" := by simpa using hcond.1
        constructor
        · simpa [normalize_new] using htype
        · obtain rfl : _ = l := Option.some.inj h
          match d.answerOptions, hcond.2 with
          | some (a :: rest), _ => simp
          | some [], h2 => simp [listTruthy] at h2
          | none, h2 => simp [listTruthy] at h2
      · rw [if_neg hcond] at h
        exact absurd h (by simp)
    · intro hne
      have htype : (d.type.getD "mcq" == "mcq") = false := by
        have : d.type.getD "mcq" ≠ "mcq" := by simpa [normalize_new] using hne
        simpa using this
      simp [normalize_new, htype]
  · constructor
    · intro l h
      simp only [normalize_old] at h ⊢
      by_cases hspr : ((o.answer.getD defaultOldAnswer).style.getD "Multiple Choice" == "SPR")
          = true
      · rw [if_pos hspr] at h
        exact absurd h (by simp)
      · rw [if_neg hspr] at h ⊢
        refine ⟨rfl, ?_⟩
        by_cases hc : (o.answer.getD defaultOldAnswer).choices.isEmpty = true
        · rw [if_pos hc] at h
          exact absurd h (by simp)
        · rw [if_neg hc] at h
          obtain rfl : _ = l := Option.some.inj h
          simp only [List.isEmpty_iff] at hc
          simpa using hc
    · intro hne
      simp only [normalize_old] at hne ⊢
      by_cases hspr : ((o.answer.getD defaultOldAnswer).style.getD "Multiple Choice" == "SPR")
          = true
      · rw [if_pos hspr]
      · rw [if_neg hspr] at hne
        exact absurd rfl hne

/-- Every record the resumable `add_question` hands to the upsert
satisfies the option/type pairing of `normOut_inv`. -/
theorem add_question_record_inv (env : ImportEnv) (ov : OverviewItem) (q : Detail)
    (rec : QuestionRecord) (h : (add_question env ov q).record = some rec) :
    (∀ l, rec.answer_options = some l → rec.question_type = "mcq" ∧ l ≠ [])
    ∧ (rec.question_type ≠ "mcq" → rec.answer_options = none) := by
  have hsrc : ∃ norm : NormOut,
      (norm = defaultNorm ∨ (∃ d, norm = normalize_new d) ∨ (∃ o, norm = normalize_old o))
      ∧ rec.answer_options = norm.answer_options
      ∧ rec.question_type = norm.question_type := by
    simp only [add_question] at h
    split at h
    · simp at h
    · split at h
      · simp at h
      · split at h
        · simp at h
        · split at h
          · simp at h
          · split at h
            · simp at h
            · split at h
              · split at h
                · simp at h
                · next norm heq =>
                  have hprov : norm = defaultNorm ∨ (∃ d, norm = normalize_new d)
                      ∨ (∃ o, norm = normalize_old o) := by
                    split at heq
                    · split at heq
                      · exact Or.inr (Or.inl ⟨_, (Except.ok.inj heq).symm⟩)
                      · exact absurd heq (by simp)
                    · split at heq
                      · exact Or.inr (Or.inr ⟨_, (Except.ok.inj heq).symm⟩)
                      · exact Or.inl (Except.ok.inj heq).symm
                  refine ⟨norm, hprov, ?_⟩
                  split at h
                  · simp only [Option.some.injEq] at h
                    rw [← h]
                    exact ⟨rfl, rfl⟩
                  · split at h
                    · simp only [Option.some.injEq] at h
                      rw [← h]
                      exact ⟨rfl, rfl⟩
                    · simp only [Option.some.injEq] at h
                      rw [← h]
                      exact ⟨rfl, rfl⟩
              · simp at h
  obtain ⟨norm, hprov, hao, hqt⟩ := hsrc
  rw [hao, hqt]
  exact normOut_inv norm hprov

/-- Every record the final script's `add_question` hands to the upsert
has options exactly on the mcq branch (possibly an empty list) and null
options on the SPR branch. -/
theorem add_question_final_record_inv (env : FinalEnv) (ov : OverviewItem) (q : NewDetail)
    (rec : QuestionRecord) (h : (add_question_final env ov q).2 = some rec) :
    (∀ l, rec.answer_options = some l → rec.question_type = "mcq")
    ∧ (rec.question_type ≠ "mcq" → rec.answer_options = none) := by
  simp only [add_question_final] at h
  split at h
  · simp at h
  · split at h
    · simp at h
    · split at h
      · simp at h
      · split at h
        · split at h
          · simp at h
          · split at h
            · -- mcq branch
              next hmcq =>
              have htype : ∀ rows : List String, True := fun _ => trivial
              split at h
              · simp only [Option.some.injEq] at h
                rw [← h]
                exact ⟨fun l _ => by simpa using hmcq, fun hne => absurd (by simpa using hmcq) hne⟩
              · split at h
                · simp only [Option.some.injEq] at h
                  rw [← h]
                  exact ⟨fun l _ => by simpa using hmcq,
                    fun hne => absurd (by simpa using hmcq) hne⟩
                · simp only [Option.some.injEq] at h
                  rw [← h]
                  exact ⟨fun l _ => by simpa using hmcq,
                    fun hne => absurd (by simpa using hmcq) hne⟩
            · split at h
              · -- spr branch
                split at h
                · simp only [Option.some.injEq] at h
                  rw [← h]
                  exact ⟨fun l hl => absurd hl (by simp), fun _ => rfl⟩
                · split at h
                  · simp only [Option.some.injEq] at h
                    rw [← h]
                    exact ⟨fun l hl => absurd hl (by simp), fun _ => rfl⟩
                  · simp only [Option.some.injEq] at h
                    rw [← h]
                    exact ⟨fun l hl => absurd hl (by simp), fun _ => rfl⟩
              · simp at h
        · simp at h

/-- Db environment with clean checks and a succeeding upsert. -/
def cEnvDb : ImportEnv :=
  { queryByExternalId := fun _ => Except.ok []
    queryByIbn := fun _ => Except.ok []
    upsert := fun _ _ => Except.ok ["r"]
    fetchNewApi := fun _ => none
    fetchOldApi := fun _ => none }

/-- Overview item with external id and mapped skill code `Q.A.`. -/
def cOvE : OverviewItem := ⟨some "E9", none, none, some "Q.A.", none, none, none⟩

/-- New-format mcq detail payload carrying no `answerOptions` key. -/
def cDetMcqNoOpts : Detail :=
  Detail.dict ⟨some "stem", none, none, some "mcq", none, KeysVal.absent, KeysVal.absent⟩

/-- Final-script environment used for the C6 counterexample. -/
def cEnvF6 : FinalEnv :=
  { fetchDetail := fun _ => FetchResF.nullData
    upsert := fun _ _ => Except.ok ["r"] }

/-- Claim C6, counterexample: an mcq detail payload with no answer
options yields a persisted record with `question_type = "mcq"` and
`answer_options = null` in the resumable importer, and
`answer_options = []` in the final script — so "populated iff mcq" fails
in the mcq → populated direction at this concrete input. -/
theorem claim_C6_counterexample :
    ((add_question cEnvDb cOvE cDetMcqNoOpts).record.map
        (fun r => (r.question_type, r.answer_options))) = some ("mcq", none)
    ∧ ((add_question_final cEnvF6 cOvE
          ⟨some "stem", none, none, some "mcq", none, KeysVal.absent, KeysVal.absent⟩).2.map
        (fun r => (r.question_type, r.answer_options))) = some ("mcq", some []) := by
  decide

/-- Claim C6, amended: only the forward direction of the invariant holds.
For every record built for persistence: non-null `answer_options` implies
`question_type = "mcq"` (and in the resumable importer the list is then
non-empty), and every non-mcq record has null `answer_options`; but an
mcq record need not have populated options — a detail payload with no
options yields null (resumable) or an empty list (final script). -/
theorem claim_C6_amended :
    (∀ (env : ImportEnv) (ov : OverviewItem) (q : Detail) (rec : QuestionRecord),
      (add_question env ov q).record = some rec →
      (∀ l, rec.answer_options = some l → rec.question_type = "mcq" ∧ l ≠ [])
      ∧ (rec.question_type ≠ "mcq" → rec.answer_options = none))
    ∧ (∀ (env : FinalEnv) (ov : OverviewItem) (q : NewDetail) (rec : QuestionRecord),
      (add_question_final env ov q).2 = some rec →
      (∀ l, rec.answer_options = some l → rec.question_type = "mcq")
      ∧ (rec.question_type ≠ "mcq" → rec.answer_options = none)) :=
  ⟨add_question_record_inv, add_question_final_record_inv⟩

/-- The concrete SPR record produced by the witness run of claim C6. -/
def cRecSpr : QuestionRecord :=
  { origin := "sat_official_ibn"
    sat_external_id := none
    sat_ibn := some "I1"
    question_text := "prompt"
    stimulus := none
    question_type := "spr"
    skill_id := "central-ideas-details"
    sat_program := "SAT"
    difficulty_band := 3
    difficulty_letter := none
    answer_options := none
    correct_answers := []
    explanation := some "because"
    domain_id := "information-ideas"
    subject_id := "english"
    is_active := true }

/-- Witness for the amended claim C6: a concrete legacy SPR import
produces exactly `cRecSpr`, and the invariant theorem applies to it. -/
theorem claim_C6_witness :
    (∀ l, cRecSpr.answer_options = some l → cRecSpr.question_type = "mcq" ∧ l ≠ [])
    ∧ (cRecSpr.question_type ≠ "mcq" → cRecSpr.answer_options = none) :=
  claim_C6_amended.1 cEnvDb ⟨none, none, some "I1", some "CID", none, none, none⟩
    (Detail.list [⟨some "prompt", none, some ⟨some "because", some "SPR", [], none⟩⟩])
    cRecSpr (by decide)

/-- Claim C10: both duplicate pre-checks return `False` when the backend
query raises, and `add_question` run against a backend whose reads all
raise behaves identically to one whose reads all report "no rows" — a
read failure is silently treated as "record not present" and the item
proceeds to the upsert path instead of being counted as failed. -/
theorem claim_C10 :
    (∀ (env : ImportEnv) (eid msg : String),
      env.queryByExternalId eid = Except.error msg →
      check_question_exists_by_external_id env eid = false)
    ∧ (∀ (env : ImportEnv) (ibn msg : String),
      env.queryByIbn ibn = Except.error msg →
      check_question_exists_by_ibn env ibn = false)
    ∧ (∀ (qe qi : String → Except String (List String))
        (up : String → QuestionRecord → Except String (List String))
        (fn fo : String → Option Detail) (ov : OverviewItem) (q : Detail),
        (∀ t, ∃ m, qe t = Except.error m) → (∀ t, ∃ m, qi t = Except.error m) →
        add_question ⟨qe, qi, up, fn, fo⟩ ov q
          = add_question ⟨fun _ => Except.ok [], fun _ => Except.ok [], up, fn, fo⟩ ov q) := by
  refine ⟨?_, ?_, ?_⟩
  · intro env eid msg h
    simp [check_question_exists_by_external_id, h]
  · intro env ibn msg h
    simp [check_question_exists_by_ibn, h]
  · intro qe qi up fn fo ov q h1 h2
    have hc1 : ∀ t, check_question_exists_by_external_id ⟨qe, qi, up, fn, fo⟩ t = false := by
      intro t
      obtain ⟨m, hm⟩ := h1 t
      simp [check_question_exists_by_external_id, hm]
    have hc2 : ∀ t, check_question_exists_by_ibn ⟨qe, qi, up, fn, fo⟩ t = false := by
      intro t
      obtain ⟨m, hm⟩ := h2 t
      simp [check_question_exists_by_ibn, hm]
    have hc3 : ∀ t, check_question_exists_by_external_id
        ⟨fun _ => Except.ok [], fun _ => Except.ok [], up, fn, fo⟩ t = false := by
      intro t
      simp [check_question_exists_by_external_id]
    have hc4 : ∀ t, check_question_exists_by_ibn
        ⟨fun _ => Except.ok [], fun _ => Except.ok [], up, fn, fo⟩ t = false := by
      intro t
      simp [check_question_exists_by_ibn]
    simp only [add_question, hc1, hc2, hc3, hc4]

/-- Backend whose reads always raise, for the C10 witness. -/
def cEnvDown : ImportEnv :=
  { queryByExternalId := fun _ => Except.error "down"
    queryByIbn := fun _ => Except.error "down"
    upsert := fun _ _ => Except.ok ["r"]
    fetchNewApi := fun _ => none
    fetchOldApi := fun _ => none }

/-- Witness for claim C10 at concrete inputs. -/
theorem claim_C10_witness :
    check_question_exists_by_external_id cEnvDown "X" = false
    ∧ check_question_exists_by_ibn cEnvDown "Y" = false
    ∧ add_question ⟨fun _ => Except.error "down", fun _ => Except.error "down",
          cEnvDown.upsert, cEnvDown.fetchNewApi, cEnvDown.fetchOldApi⟩ cOvE cDetMcqNoOpts
        = add_question ⟨fun _ => Except.ok [], fun _ => Except.ok [],
            cEnvDown.upsert, cEnvDown.fetchNewApi, cEnvDown.fetchOldApi⟩ cOvE cDetMcqNoOpts :=
  ⟨claim_C10.1 cEnvDown "X" "down" rfl,
   claim_C10.2.1 cEnvDown "Y" "down" rfl,
   claim_C10.2.2 (fun _ => Except.error "down") (fun _ => Except.error "down")
     cEnvDown.upsert cEnvDown.fetchNewApi cEnvDown.fetchOldApi cOvE cDetMcqNoOpts
     (fun _ => ⟨"down", rfl⟩) (fun _ => ⟨"down", rfl⟩)⟩

end SatImport
